import Mathlib

/-!
Verification of the beluga spatial hash module
(`beluga/algorithm/spatial_hash.hpp`).

The embedding models C++ `std::size_t` words of width `w` (the source
supports `w = 32` and `w = 64`; the concrete platform word is 64 bits) as
natural numbers reduced modulo `2 ^ w`, signed integers as `Int` with
two's-complement reinterpretation made explicit, and `double` inputs as
rationals `ℚ` with exact arithmetic and mathematical floor (toward
negative infinity), matching `std::floor` on representable values.
-/

namespace beluga

namespace detail

/-- Two's-complement reinterpretation of a signed word as an unsigned word:
`static_cast<unsigned_type>(signed_value)` for a `w`-bit word. -/
def toUnsigned (w : Nat) (z : Int) : Nat := (z % ((2 : Int) ^ w)).toNat

/-- The multiplicative (Fibonacci) hashing constant `kFib` selected in
`floor_and_fibo_hash` by the word width: `11400714819323198485LLU` when
`std::size_t` is 64 bits wide, `2654435769U` when it is 32 bits wide
(any other width is rejected by a `static_assert`, modelled here as `0`). -/
def kFib (w : Nat) : Nat :=
  if w = 64 then 11400714819323198485
  else if w = 32 then 2654435769
  else 0

/-- Integer tail of `floor_and_fibo_hash`: everything the source does after
`signed_value = static_cast<signed_type>(std::floor(value))`, as a function
of that signed value `z`.  Matches the source line by line:
unsigned reinterpretation, wraparound multiplication by `kFib`, and the
`N * I != 0` rotation branch built from a left shift (wrapping modulo
`2 ^ w`), a right shift by `digits - N * I`, and a bitwise or. -/
def fiboRot (w N I : Nat) (z : Int) : Nat :=
  let unsigned_value : Nat := toUnsigned w z
  let div_hashed_value : Nat := (kFib w * unsigned_value) % 2 ^ w
  if N * I ≠ 0 then
    let left_hash := (div_hashed_value <<< (N * I)) % 2 ^ w
    let right_hash := div_hashed_value >>> (w - N * I)
    left_hash ||| right_hash
  else
    div_hashed_value

/-- `beluga::detail::floor_and_fibo_hash<N, I>(value)` on a `w`-bit word:
floor the input toward negative infinity, convert to a signed integer,
then run the integer pipeline `fiboRot`. -/
def floor_and_fibo_hash (w N I : Nat) (value : ℚ) : Nat :=
  fiboRot w N I ⌊value⌋

/-- `std::numeric_limits<std::size_t>::digits` on the build platform. -/
def wordWidth : Nat := 64

/-- `kBits` computed in `beluga::detail::hash_impl` for dimensionality `D`:
`std::numeric_limits<std::size_t>::digits / sizeof...(Ids)`,
integer (truncating) division. -/
def kBits (D : Nat) : Nat := wordWidth / D

/-- `beluga::detail::hash_impl(value, resolution, index_sequence)` for a
`D`-axis state: per axis `i`, hash `value[i] / resolution[i]` with
`floor_and_fibo_hash<kBits, i>`, and fold the per-axis words with
exclusive or (the C++ fold expression `(... ^ ...)`). -/
def hash_impl (D : Nat) (value : Fin D → ℚ) (resolution : Fin D → ℚ) : Nat :=
  ((List.finRange D).map
    (fun i => floor_and_fibo_hash wordWidth (kBits D) i.val (value i / resolution i))).foldr
    Nat.xor 0

/-- Reference left-rotation on a `w`-bit word, written from the spec:
two shifts with wraparound combined by bitwise or, the shift amount
guarded modulo the word width. -/
def rotl (w x k : Nat) : Nat :=
  ((x <<< (k % w)) % 2 ^ w) ||| (x >>> (w - k % w))

/-- The multiplicative hashing constant as the spec words state it:
`2654435769` for 32-bit words, `11400714819323198485` for 64-bit words. -/
def kFibSpec (w : Nat) : Nat :=
  if w = 32 then 2654435769 else 11400714819323198485

/-- Reference single-axis hash, written from the spec's words (§4.1):
floor the value toward negative infinity, reinterpret the signed result's
two's-complement bit pattern as unsigned, multiply with wraparound by the
Fibonacci constant for the word width, and left-rotate the product by
`bits_per_axis * axis_index` bit positions. -/
def axis_hash_spec (w bits_per_axis axis_index : Nat) (value : ℚ) : Nat :=
  rotl w ((kFibSpec w * toUnsigned w ⌊value⌋) % 2 ^ w) (bits_per_axis * axis_index)

/-- Reference multi-axis combiner, written from the spec's words (§4.2):
`bits_per_axis = word_width / D` with truncating division, per axis `i`
hash `axes[i] / resolutions[i]` with the reference single-axis hash at
axis index `i`, and fold the `D` resulting words with exclusive or. -/
def combine_spec (D : Nat) (axes resolutions : Fin D → ℚ) : Nat :=
  ((List.finRange D).map
    (fun i => axis_hash_spec wordWidth (wordWidth / D) i.val (axes i / resolutions i))).foldr
    Nat.xor 0

/-- `floor_and_fibo_hash` reads its input only through its floor. -/
theorem floor_and_fibo_hash_congr (w N I : Nat) {v1 v2 : ℚ} (h : ⌊v1⌋ = ⌊v2⌋) :
    floor_and_fibo_hash w N I v1 = floor_and_fibo_hash w N I v2 := by
  unfold floor_and_fibo_hash
  rw [h]

/-- The rotation offset `kBits D * I` is below the word width for every
axis index `I < D`. -/
theorem kBits_mul_lt (D I : Nat) (hI : I < D) : kBits D * I < wordWidth := by
  by_cases hk : kBits D = 0
  · simp only [hk, Nat.zero_mul]
    exact Nat.pos_of_ne_zero (by unfold wordWidth; omega)
  · calc kBits D * I < kBits D * D :=
          mul_lt_mul_of_pos_left hI (Nat.pos_of_ne_zero hk)
    _ ≤ wordWidth := Nat.div_mul_le_self wordWidth D

/-- A `w`-bit word reduced modulo `2 ^ w` is below `2 ^ w`. -/
theorem mod_two_pow_lt (x w : Nat) : x % 2 ^ w < 2 ^ w :=
  Nat.mod_lt _ (Nat.pos_pow_of_pos w (by omega))

/-- The source single-axis hash agrees with the spec's reference
single-axis hash on 32- and 64-bit words whenever the rotation offset is
below the word width. -/
theorem floor_and_fibo_hash_eq_spec (w N I : Nat) (v : ℚ)
    (hw : w = 32 ∨ w = 64) (hr : N * I < w) :
    floor_and_fibo_hash w N I v = axis_hash_spec w N I v := by
  have hk : kFibSpec w = kFib w := by
    rcases hw with h | h <;> subst h <;> rfl
  have hw0 : 0 < w := by rcases hw with h | h <;> subst h <;> omega
  unfold floor_and_fibo_hash fiboRot axis_hash_spec rotl
  rw [hk]
  set P := (kFib w * toUnsigned w ⌊v⌋) % 2 ^ w with hP
  have hPlt : P < 2 ^ w := mod_two_pow_lt _ w
  rw [Nat.mod_eq_of_lt hr]
  by_cases h0 : N * I = 0
  · rw [if_neg (by omega)]
    rw [h0, Nat.shiftLeft_zero, Nat.mod_eq_of_lt hPlt, Nat.sub_zero,
      Nat.shiftRight_eq_div_pow, Nat.div_eq_of_lt hPlt, Nat.or_zero]
  · rw [if_pos h0]

/-- A fold of exclusive ors over a list of zero words is zero. -/
theorem foldr_xor_zero (l : List Nat) (h : ∀ x ∈ l, x = 0) :
    l.foldr Nat.xor 0 = 0 := by
  induction l with
  | nil => rfl
  | cons a t ih =>
    rw [List.foldr_cons, h a (List.mem_cons_self a t),
      ih (fun x hx => h x (List.mem_cons_of_mem a hx))]
    rfl

/-- The integer hash pipeline maps the zero bucket to the zero word. -/
theorem fiboRot_zero (w N I : Nat) : fiboRot w N I 0 = 0 := by
  unfold fiboRot toUnsigned
  simp

/-- Unfolding of `hash_impl` at dimensionality 2. -/
theorem hash_impl_two (v r : Fin 2 → ℚ) : hash_impl 2 v r =
    Nat.xor (floor_and_fibo_hash 64 32 0 (v 0 / r 0))
      (Nat.xor (floor_and_fibo_hash 64 32 1 (v 1 / r 1)) 0) := rfl

/-- Unfolding of `hash_impl` at dimensionality 3. -/
theorem hash_impl_three (v r : Fin 3 → ℚ) : hash_impl 3 v r =
    Nat.xor (floor_and_fibo_hash 64 21 0 (v 0 / r 0))
      (Nat.xor (floor_and_fibo_hash 64 21 1 (v 1 / r 1))
        (Nat.xor (floor_and_fibo_hash 64 21 2 (v 2 / r 2)) 0)) := rfl

/-- Floor evaluation helper: `⌊q⌋ = z` from the two bracketing bounds. -/
theorem floorEval (q : ℚ) (z : ℤ) (h1 : (z : ℚ) ≤ q) (h2 : q < z + 1) :
    ⌊q⌋ = z :=
  Int.floor_eq_iff.mpr ⟨h1, h2⟩

end detail

/-- `beluga::spatial_hash<std::array<T, N>>`: an array hasher owning the
per-axis resolutions given at construction time (member `resolution_`). -/
structure spatial_hash_array (N : Nat) where
  resolution_ : Fin N → ℚ

/-- `spatial_hash<std::array<T, N>>::operator()`: delegates to
`detail::hash_impl` with the stored resolutions. -/
def spatial_hash_array.hash {N : Nat} (h : spatial_hash_array N)
    (array : Fin N → ℚ) : Nat :=
  detail.hash_impl N array h.resolution_

/-- `beluga::spatial_hash<std::tuple<double, double, double>>`: the
heterogeneous-tuple hasher at the 3-tuple instantiation used by the pose
hasher, owning the per-axis resolutions (member `resolution_`). -/
structure spatial_hash_tuple3 where
  resolution_ : Fin 3 → ℚ

/-- `spatial_hash<Tuple<Types...>>::operator()` at `D = 3`: delegates to
`detail::hash_impl` with the stored resolutions. -/
def spatial_hash_tuple3.hash (h : spatial_hash_tuple3) (tuple : ℚ × ℚ × ℚ) : Nat :=
  detail.hash_impl 3 ![tuple.1, tuple.2.1, tuple.2.2] h.resolution_

/-- Modelled from the spec: the external 2D rigid pose type
(`Sophus::SE2d`, not part of this repository).  The spec requires only the
capability the hasher uses: the two translation components
(`state.translation().x()`, `state.translation().y()`) and the scalar
angle extracted from the rotation (`state.so2().log()`). -/
structure SE2 where
  translation : ℚ × ℚ
  so2_log : ℚ

/-- `beluga::spatial_hash<Sophus::SE2d>`: owns the underlying 3-tuple
hasher (member `underlying_hasher_`, default-initialized with
resolutions `{1., 1., 1.}`). -/
structure spatial_hash_se2 where
  underlying_hasher_ : spatial_hash_tuple3

/-- The three-argument constructor
`spatial_hash(x_clustering_resolution, y_clustering_resolution,
theta_clustering_resolution)`. -/
def spatial_hash_se2.ofResolutions (x_res y_res theta_res : ℚ) : spatial_hash_se2 :=
  ⟨⟨![x_res, y_res, theta_res]⟩⟩

/-- The two-argument constructor
`spatial_hash(linear_clustering_resolution, angular_clustering_resolution)`,
which delegates to the three-argument one with the linear resolution used
for both x and y. -/
def spatial_hash_se2.ofLinearAngular (linear_res angular_res : ℚ) : spatial_hash_se2 :=
  spatial_hash_se2.ofResolutions linear_res linear_res angular_res

/-- The default constructor `spatial_hash() = default`, which leaves the
member initializer `underlying_hasher_{{1., 1., 1.}}` in effect. -/
def spatial_hash_se2.mkDefault : spatial_hash_se2 :=
  ⟨⟨![1, 1, 1]⟩⟩

/-- `spatial_hash<Sophus::SE2d>::operator()`: normalizes the pose to the
3-tuple `(x, y, so2().log())` and delegates to the tuple hasher. -/
def spatial_hash_se2.hash (h : spatial_hash_se2) (state : SE2) : Nat :=
  h.underlying_hasher_.hash (state.translation.1, state.translation.2, state.so2_log)

end beluga

/-- C1 (bucket equivalence): for every dimensionality `D >= 1`, every
resolution vector `r`, and state values `v1`, `v2` whose per-axis
quotients by the resolution have equal floors on every axis, the array
hasher constructed from `r` maps `v1` and `v2` to the same hash word. -/
theorem C1_bucket_equivalence (D : Nat) (hD : 1 ≤ D) (r v1 v2 : Fin D → ℚ)
    (h : ∀ i : Fin D, ⌊v1 i / r i⌋ = ⌊v2 i / r i⌋) :
    (beluga.spatial_hash_array.mk r).hash v1 =
      (beluga.spatial_hash_array.mk r).hash v2 := by
  unfold beluga.spatial_hash_array.hash beluga.detail.hash_impl
  congr 1
  apply List.map_congr_left
  intro i _
  exact beluga.detail.floor_and_fibo_hash_congr _ _ _ (h i)

/-- Witness for C1 at `D = 2`, `r = (1, 1)`, `v1 = (1, 2)`,
`v2 = (1.4, 2.9)`. -/
theorem C1_bucket_equivalence_witness :
    (beluga.spatial_hash_array.mk ![(1:ℚ), 1]).hash ![(1:ℚ), 2] =
      (beluga.spatial_hash_array.mk ![(1:ℚ), 1]).hash ![(14/10:ℚ), 29/10] :=
  C1_bucket_equivalence 2 (by norm_num) ![(1:ℚ), 1] ![(1:ℚ), 2]
    ![(14/10:ℚ), 29/10] (by
      intro i
      fin_cases i
      · show ⌊(1:ℚ) / 1⌋ = ⌊(14/10:ℚ) / 1⌋
        rw [beluga.detail.floorEval ((1:ℚ) / 1) 1 (by norm_num) (by norm_num),
          beluga.detail.floorEval ((14/10:ℚ) / 1) 1 (by norm_num) (by norm_num)]
      · show ⌊(2:ℚ) / 1⌋ = ⌊(29/10:ℚ) / 1⌋
        rw [beluga.detail.floorEval ((2:ℚ) / 1) 2 (by norm_num) (by norm_num),
          beluga.detail.floorEval ((29/10:ℚ) / 1) 2 (by norm_num) (by norm_num)])

/-- C2 (AxisHash reference definition): on 32- and 64-bit words, for every
input value and every bit count `N` and axis index `I` whose rotation
offset is within the word, the single-axis primitive floors toward
negative infinity, reinterprets the two's-complement pattern as unsigned,
multiplies with wraparound by the Fibonacci constant of the word width
(2654435769 on 32 bits, 11400714819323198485 on 64 bits), and left-rotates
the product by `N * I` positions (returning it unrotated at offset 0);
moreover `-0.3` at resolution `1.0` floors to bucket `-1`. -/
theorem C2_axis_hash_reference (w N I : Nat) (v : ℚ)
    (hw : w = 32 ∨ w = 64) (hr : N * I < w) :
    beluga.detail.floor_and_fibo_hash w N I v =
      beluga.detail.axis_hash_spec w N I v ∧
    beluga.detail.kFib 32 = 2654435769 ∧
    beluga.detail.kFib 64 = 11400714819323198485 ∧
    ⌊(-3/10 : ℚ) / 1⌋ = -1 :=
  ⟨beluga.detail.floor_and_fibo_hash_eq_spec w N I v hw hr, rfl, rfl,
    beluga.detail.floorEval ((-3/10 : ℚ) / 1) (-1) (by norm_num) (by norm_num)⟩

/-- Witness for C2 at `w = 64`, `N = 21`, `I = 1`, `value = -0.3`. -/
theorem C2_axis_hash_reference_witness :
    beluga.detail.floor_and_fibo_hash 64 21 1 (-3/10 : ℚ) =
      beluga.detail.axis_hash_spec 64 21 1 (-3/10 : ℚ) ∧
    beluga.detail.kFib 32 = 2654435769 ∧
    beluga.detail.kFib 64 = 11400714819323198485 ∧
    ⌊(-3/10 : ℚ) / 1⌋ = -1 :=
  C2_axis_hash_reference 64 21 1 (-3/10 : ℚ) (Or.inr rfl) (by norm_num)

/-- C3 (Combiner reference definition): for every dimensionality `D >= 1`,
the multi-axis hash uses `bits_per_axis = word_width / D` (truncating),
passes each quotient `axes[i] / resolutions[i]` to the single-axis
primitive at axis index `i`, and XOR-folds the `D` resulting words. -/
theorem C3_combiner_reference (D : Nat) (hD : 1 ≤ D)
    (axes resolutions : Fin D → ℚ) :
    beluga.detail.hash_impl D axes resolutions =
      beluga.detail.combine_spec D axes resolutions := by
  unfold beluga.detail.hash_impl beluga.detail.combine_spec
  congr 1
  apply List.map_congr_left
  intro i _
  exact beluga.detail.floor_and_fibo_hash_eq_spec _ _ _ _ (Or.inr rfl)
    (beluga.detail.kBits_mul_lt D i.val i.isLt)

/-- Witness for C3 at `D = 2`, `axes = (3, -2)`, `resolutions = (1, 2)`. -/
theorem C3_combiner_reference_witness :
    beluga.detail.hash_impl 2 ![(3:ℚ), -2] ![(1:ℚ), 2] =
      beluga.detail.combine_spec 2 ![(3:ℚ), -2] ![(1:ℚ), 2] :=
  C3_combiner_reference 2 (by norm_num) ![(3:ℚ), -2] ![(1:ℚ), 2]

/-- C4 (determinism): hashing a state returns the same word on every call,
and two array-hasher instances constructed from equal resolution vectors
return equal hash words on every input. -/
theorem C4_determinism (D : Nat) (h1 h2 : beluga.spatial_hash_array D)
    (hr : h1.resolution_ = h2.resolution_) (v : Fin D → ℚ) :
    h1.hash v = h1.hash v ∧ h1.hash v = h2.hash v := by
  refine ⟨rfl, ?_⟩
  unfold beluga.spatial_hash_array.hash
  rw [hr]

/-- Witness for C4 at `D = 1` with two instances built from resolution
`(2)`, hashing `(5)`. -/
theorem C4_determinism_witness :
    (beluga.spatial_hash_array.mk ![(2:ℚ)]).hash ![(5:ℚ)] =
      (beluga.spatial_hash_array.mk ![(2:ℚ)]).hash ![(5:ℚ)] ∧
    (beluga.spatial_hash_array.mk ![(2:ℚ)]).hash ![(5:ℚ)] =
      (beluga.spatial_hash_array.mk ![(2:ℚ)]).hash ![(5:ℚ)] :=
  C4_determinism 1 (beluga.spatial_hash_array.mk ![(2:ℚ)])
    (beluga.spatial_hash_array.mk ![(2:ℚ)]) rfl ![(5:ℚ)]

/-- C5 (concrete scenario, fixed sequence): with resolution `(1.0, 1.0)`,
the array hasher sends `[1.0, 2.0]` and `[1.4, 2.9]` to the same word,
which differs from the word for `[2.0, 2.0]`. -/
theorem C5_concrete_array_scenario :
    (beluga.spatial_hash_array.mk ![(1:ℚ), 1]).hash ![(1:ℚ), 2] =
      (beluga.spatial_hash_array.mk ![(1:ℚ), 1]).hash ![(14/10:ℚ), 29/10] ∧
    (beluga.spatial_hash_array.mk ![(1:ℚ), 1]).hash ![(1:ℚ), 2] ≠
      (beluga.spatial_hash_array.mk ![(1:ℚ), 1]).hash ![(2:ℚ), 2] := by
  constructor
  · show beluga.detail.hash_impl 2 ![(1:ℚ), 2] ![(1:ℚ), 1] =
      beluga.detail.hash_impl 2 ![(14/10:ℚ), 29/10] ![(1:ℚ), 1]
    rw [beluga.detail.hash_impl_two, beluga.detail.hash_impl_two]
    show Nat.xor (beluga.detail.floor_and_fibo_hash 64 32 0 ((1:ℚ) / 1))
        (Nat.xor (beluga.detail.floor_and_fibo_hash 64 32 1 ((2:ℚ) / 1)) 0) =
      Nat.xor (beluga.detail.floor_and_fibo_hash 64 32 0 ((14/10:ℚ) / 1))
        (Nat.xor (beluga.detail.floor_and_fibo_hash 64 32 1 ((29/10:ℚ) / 1)) 0)
    unfold beluga.detail.floor_and_fibo_hash
    rw [beluga.detail.floorEval ((1:ℚ) / 1) 1 (by norm_num) (by norm_num),
      beluga.detail.floorEval ((2:ℚ) / 1) 2 (by norm_num) (by norm_num),
      beluga.detail.floorEval ((14/10:ℚ) / 1) 1 (by norm_num) (by norm_num),
      beluga.detail.floorEval ((29/10:ℚ) / 1) 2 (by norm_num) (by norm_num)]
  · show beluga.detail.hash_impl 2 ![(1:ℚ), 2] ![(1:ℚ), 1] ≠
      beluga.detail.hash_impl 2 ![(2:ℚ), 2] ![(1:ℚ), 1]
    rw [beluga.detail.hash_impl_two, beluga.detail.hash_impl_two]
    show Nat.xor (beluga.detail.floor_and_fibo_hash 64 32 0 ((1:ℚ) / 1))
        (Nat.xor (beluga.detail.floor_and_fibo_hash 64 32 1 ((2:ℚ) / 1)) 0) ≠
      Nat.xor (beluga.detail.floor_and_fibo_hash 64 32 0 ((2:ℚ) / 1))
        (Nat.xor (beluga.detail.floor_and_fibo_hash 64 32 1 ((2:ℚ) / 1)) 0)
    unfold beluga.detail.floor_and_fibo_hash
    rw [beluga.detail.floorEval ((1:ℚ) / 1) 1 (by norm_num) (by norm_num),
      beluga.detail.floorEval ((2:ℚ) / 1) 2 (by norm_num) (by norm_num)]
    decide

/-- C6 (concrete scenario, pose): with linear resolution `0.1` and angular
resolution `0.1`, the pose `(x=0.05, y=0.05, theta=0.01)` hashes to the
same word as `(0.09, 0.02, 0.05)`, which differs from the word for
`(0.15, 0.05, 0.01)`. -/
theorem C6_concrete_pose_scenario :
    (beluga.spatial_hash_se2.ofLinearAngular (1/10) (1/10)).hash
        ⟨(5/100, 5/100), 1/100⟩ =
      (beluga.spatial_hash_se2.ofLinearAngular (1/10) (1/10)).hash
        ⟨(9/100, 2/100), 5/100⟩ ∧
    (beluga.spatial_hash_se2.ofLinearAngular (1/10) (1/10)).hash
        ⟨(5/100, 5/100), 1/100⟩ ≠
      (beluga.spatial_hash_se2.ofLinearAngular (1/10) (1/10)).hash
        ⟨(15/100, 5/100), 1/100⟩ := by
  constructor
  · show beluga.detail.hash_impl 3 ![(5/100:ℚ), 5/100, 1/100]
        ![(1/10:ℚ), 1/10, 1/10] =
      beluga.detail.hash_impl 3 ![(9/100:ℚ), 2/100, 5/100]
        ![(1/10:ℚ), 1/10, 1/10]
    rw [beluga.detail.hash_impl_three, beluga.detail.hash_impl_three]
    show Nat.xor (beluga.detail.floor_and_fibo_hash 64 21 0 ((5/100:ℚ) / (1/10)))
        (Nat.xor (beluga.detail.floor_and_fibo_hash 64 21 1 ((5/100:ℚ) / (1/10)))
          (Nat.xor (beluga.detail.floor_and_fibo_hash 64 21 2 ((1/100:ℚ) / (1/10))) 0)) =
      Nat.xor (beluga.detail.floor_and_fibo_hash 64 21 0 ((9/100:ℚ) / (1/10)))
        (Nat.xor (beluga.detail.floor_and_fibo_hash 64 21 1 ((2/100:ℚ) / (1/10)))
          (Nat.xor (beluga.detail.floor_and_fibo_hash 64 21 2 ((5/100:ℚ) / (1/10))) 0))
    unfold beluga.detail.floor_and_fibo_hash
    rw [beluga.detail.floorEval ((5/100:ℚ) / (1/10)) 0 (by norm_num) (by norm_num),
      beluga.detail.floorEval ((1/100:ℚ) / (1/10)) 0 (by norm_num) (by norm_num),
      beluga.detail.floorEval ((9/100:ℚ) / (1/10)) 0 (by norm_num) (by norm_num),
      beluga.detail.floorEval ((2/100:ℚ) / (1/10)) 0 (by norm_num) (by norm_num)]
  · show beluga.detail.hash_impl 3 ![(5/100:ℚ), 5/100, 1/100]
        ![(1/10:ℚ), 1/10, 1/10] ≠
      beluga.detail.hash_impl 3 ![(15/100:ℚ), 5/100, 1/100]
        ![(1/10:ℚ), 1/10, 1/10]
    rw [beluga.detail.hash_impl_three, beluga.detail.hash_impl_three]
    show Nat.xor (beluga.detail.floor_and_fibo_hash 64 21 0 ((5/100:ℚ) / (1/10)))
        (Nat.xor (beluga.detail.floor_and_fibo_hash 64 21 1 ((5/100:ℚ) / (1/10)))
          (Nat.xor (beluga.detail.floor_and_fibo_hash 64 21 2 ((1/100:ℚ) / (1/10))) 0)) ≠
      Nat.xor (beluga.detail.floor_and_fibo_hash 64 21 0 ((15/100:ℚ) / (1/10)))
        (Nat.xor (beluga.detail.floor_and_fibo_hash 64 21 1 ((5/100:ℚ) / (1/10)))
          (Nat.xor (beluga.detail.floor_and_fibo_hash 64 21 2 ((1/100:ℚ) / (1/10))) 0))
    unfold beluga.detail.floor_and_fibo_hash
    rw [beluga.detail.floorEval ((5/100:ℚ) / (1/10)) 0 (by norm_num) (by norm_num),
      beluga.detail.floorEval ((1/100:ℚ) / (1/10)) 0 (by norm_num) (by norm_num),
      beluga.detail.floorEval ((15/100:ℚ) / (1/10)) 1 (by norm_num) (by norm_num)]
    decide

/-- C7 (default pose resolution): a pose hasher constructed with no
arguments hashes every pose exactly as one explicitly constructed with
resolutions `(1.0, 1.0, 1.0)`. -/
theorem C7_default_pose_resolution (state : beluga.SE2) :
    beluga.spatial_hash_se2.mkDefault.hash state =
      (beluga.spatial_hash_se2.ofResolutions 1 1 1).hash state := rfl

/-- C8 (pose-to-tuple refinement): for every configuration and pose, the
pose hasher's word equals the 3-tuple hasher's word, with the same three
resolutions, on `(x, y, theta)` where `theta` is the scalar angle from the
pose's rotation logarithm. -/
theorem C8_pose_tuple_refinement (x_res y_res theta_res : ℚ)
    (state : beluga.SE2) :
    (beluga.spatial_hash_se2.ofResolutions x_res y_res theta_res).hash state =
      (beluga.spatial_hash_tuple3.mk ![x_res, y_res, theta_res]).hash
        (state.translation.1, state.translation.2, state.so2_log) := rfl

/-- C9 (rotation shift safety): for every dimensionality `D >= 1` and axis
index `I < D`, with `N = word_width / D` truncating: when `N * I` is
nonzero both shift amounts `N * I` and `word_width - N * I` lie strictly
between 0 and the word width, and when `N * I` is zero the shifting branch
is not taken (the unrotated product is returned). -/
theorem C9_rotation_shift_safety (D I : Nat) (hD : 1 ≤ D) (hI : I < D) :
    (beluga.detail.kBits D * I ≠ 0 →
      0 < beluga.detail.kBits D * I ∧
      beluga.detail.kBits D * I < beluga.detail.wordWidth ∧
      0 < beluga.detail.wordWidth - beluga.detail.kBits D * I ∧
      beluga.detail.wordWidth - beluga.detail.kBits D * I < beluga.detail.wordWidth) ∧
    (beluga.detail.kBits D * I = 0 → ∀ v : ℚ,
      beluga.detail.floor_and_fibo_hash beluga.detail.wordWidth
          (beluga.detail.kBits D) I v =
        (beluga.detail.kFib beluga.detail.wordWidth *
          beluga.detail.toUnsigned beluga.detail.wordWidth ⌊v⌋) %
          2 ^ beluga.detail.wordWidth) := by
  have hlt := beluga.detail.kBits_mul_lt D I hI
  constructor
  · intro h0
    have hpos := Nat.pos_of_ne_zero h0
    exact ⟨hpos, hlt, by omega, by omega⟩
  · intro h0 v
    unfold beluga.detail.floor_and_fibo_hash beluga.detail.fiboRot
    rw [h0, if_neg (by omega)]

/-- Witness for C9 at `D = 3`, `I = 2` (rotation offset `21 * 2 = 42`). -/
theorem C9_rotation_shift_safety_witness :
    (beluga.detail.kBits 3 * 2 ≠ 0 →
      0 < beluga.detail.kBits 3 * 2 ∧
      beluga.detail.kBits 3 * 2 < beluga.detail.wordWidth ∧
      0 < beluga.detail.wordWidth - beluga.detail.kBits 3 * 2 ∧
      beluga.detail.wordWidth - beluga.detail.kBits 3 * 2 < beluga.detail.wordWidth) ∧
    (beluga.detail.kBits 3 * 2 = 0 → ∀ v : ℚ,
      beluga.detail.floor_and_fibo_hash beluga.detail.wordWidth
          (beluga.detail.kBits 3) 2 v =
        (beluga.detail.kFib beluga.detail.wordWidth *
          beluga.detail.toUnsigned beluga.detail.wordWidth ⌊v⌋) %
          2 ^ beluga.detail.wordWidth) :=
  C9_rotation_shift_safety 3 2 (by norm_num) (by norm_num)

/-- C10 (origin cell hashes to zero): for every dimensionality `D >= 1`
and resolutions `r`, a state whose per-axis quotient lies in `[0, 1)` on
every axis hashes to the word 0 exactly. -/
theorem C10_origin_cell_zero (D : Nat) (hD : 1 ≤ D) (v r : Fin D → ℚ)
    (h : ∀ i : Fin D, 0 ≤ v i / r i ∧ v i / r i < 1) :
    beluga.detail.hash_impl D v r = 0 := by
  unfold beluga.detail.hash_impl
  apply beluga.detail.foldr_xor_zero
  intro x hx
  rw [List.mem_map] at hx
  obtain ⟨i, _, rfl⟩ := hx
  unfold beluga.detail.floor_and_fibo_hash
  rw [beluga.detail.floorEval (v i / r i) 0 (by exact_mod_cast (h i).1)
    (by simpa using (h i).2)]
  exact beluga.detail.fiboRot_zero _ _ _

/-- Witness for C10 at `D = 1`, `r = (2)`, `v = (1)` (quotient `1/2`). -/
theorem C10_origin_cell_zero_witness :
    beluga.detail.hash_impl 1 ![(1:ℚ)] ![(2:ℚ)] = 0 :=
  C10_origin_cell_zero 1 (by norm_num) ![(1:ℚ)] ![(2:ℚ)] (by
    intro i
    fin_cases i
    constructor
    · show (0:ℚ) ≤ (1:ℚ) / 2
      norm_num
    · show (1:ℚ) / 2 < 1
      norm_num)
